import Mathlib

/-!
Verification development for the `AdressScouting` component of CNCTools
(src/CnCMods/AdressScouting/dllmain.cpp and its export header).

The component is a DLL whose `DllMain`, on process attach, walks the PE
export table of the host process's main module and writes one report line
per named export to a log file and to a freshly allocated console, and
which additionally exports three proxy functions (`PrintAddress`,
`Direct3D8EnableMaximizedModeShim`, `Direct3DCreate8`) impersonating
`d3d8.dll` exports.

The embedding below models the in-memory module image as a list of bytes
starting at the module's base address, and the pointer-cast reads of the
C code as explicit little-endian multi-byte reads at offsets.
-/

namespace AdressScouting

/-- Byte read `m[a]` over the mapped region modelled by `m`; `0` past the
end (header reads in the claims stay inside the mapped region). -/
def readByte (m : List Nat) (a : Nat) : Nat := m.getD a 0

/-- Little-endian 16-bit read, modelling a `WORD*` dereference. -/
def readU16 (m : List Nat) (a : Nat) : Nat :=
  readByte m a + 256 * readByte m (a + 1)

/-- Little-endian 32-bit read, modelling a `DWORD*` dereference. -/
def readU32 (m : List Nat) (a : Nat) : Nat :=
  readByte m a + 256 * readByte m (a + 1)
    + 65536 * readByte m (a + 2) + 16777216 * readByte m (a + 3)

/-- Value of `IMAGE_DOS_SIGNATURE` ("MZ"). -/
def IMAGE_DOS_SIGNATURE : Nat := 0x5A4D

/-- Value of `IMAGE_NT_SIGNATURE` ("PE\x00\x00"). -/
def IMAGE_NT_SIGNATURE : Nat := 0x4550

/-- Null-terminated string scan starting at offset `a`, returning both the
bytes of the string (without the terminator) and the list of offsets the
scan dereferences (including the terminator's offset when it is reached).
This models the read of `char* functionName` by `%s` in the C code: the
scan stops only at a null byte or at the end of the mapped region, never
at the module's reported image size. -/
def scanName (m : List Nat) : Nat → Nat → List Nat × List Nat
  | _, 0 => ([], [])
  | a, fuel + 1 =>
    match m.get? a with
    | none => ([], [])
    | some 0 => ([], [a])
    | some b =>
      let r := scanName m (a + 1) fuel
      (b :: r.1, a :: r.2)

/-- Name read at offset `a`: the scan of `scanName` with enough fuel to
cross the whole mapped region. `.1` is the name's bytes, `.2` the offsets
read. -/
def readName (m : List Nat) (a : Nat) : List Nat × List Nat :=
  scanName m a m.length

/-- Module image as the Walker sees it: the base load address, the mapped
bytes starting at that base (offset 0 = base; the mapped region may extend
past the reported image size), the `SizeOfImage` reported by
`GetModuleInformation`, and the result of the external
`ImageDirectoryEntryToData` call (a DbgHelp library collaborator, not code
of this repository): `some ed` is the offset of the `IMAGE_EXPORT_DIRECTORY`
from the base, `none` models a NULL return (no export directory). -/
structure ModuleImage where
  base : Nat
  mem : List Nat
  sizeOfImage : Nat
  exportDirOff : Option Nat
  deriving DecidableEq, Repr

/-- Field `NumberOfNames` of the export directory at offset `ed`. -/
def numberOfNames (m : List Nat) (ed : Nat) : Nat := readU32 m (ed + 0x18)

/-- Field `AddressOfFunctions` of the export directory at offset `ed`. -/
def addressOfFunctions (m : List Nat) (ed : Nat) : Nat := readU32 m (ed + 0x1C)

/-- Field `AddressOfNames` of the export directory at offset `ed`. -/
def addressOfNames (m : List Nat) (ed : Nat) : Nat := readU32 m (ed + 0x20)

/-- Field `AddressOfNameOrdinals` of the export directory at offset `ed`. -/
def addressOfNameOrdinals (m : List Nat) (ed : Nat) : Nat := readU32 m (ed + 0x24)

/-- Read of `functionNames[i]`: the RVA of the i-th export name. -/
def nameRVA (m : List Nat) (ed i : Nat) : Nat :=
  readU32 m (addressOfNames m ed + 4 * i)

/-- Read of `functionOrdinals[i]`: the ordinal of the i-th named export. -/
def nameOrdinal (m : List Nat) (ed i : Nat) : Nat :=
  readU16 m (addressOfNameOrdinals m ed + 2 * i)

/-- Read of `functionAddresses[o]`: the function RVA at ordinal `o`. -/
def funcRVA (m : List Nat) (ed o : Nat) : Nat :=
  readU32 m (addressOfFunctions m ed + 4 * o)

/-- Report lines the component can emit, one constructor per distinct
format string of the C code. -/
inductive Line where
  | dllLoaded
  | header
  | moduleBase (addr : Nat)
  | exportLine (name : List Nat) (addr : Nat)
  | errNoExportDir
  | errInvalidNt
  | errInvalidDos
  | errGetModuleInfo
  | errGetModuleHandle
  | d3d8Base (addr : Nat)
  | errD3d8NotFound
  | printAddressCalled
  deriving DecidableEq, Repr

/-- Export record emitted for name index `i`: the name scanned at
`base + functionNames[i]` and the absolute address
`base + functionAddresses[functionOrdinals[i]]` (the two-step ordinal
lookup of the C loop body). -/
def exportRecord (img : ModuleImage) (ed i : Nat) : Line :=
  Line.exportLine (readName img.mem (nameRVA img.mem ed i)).1
    (img.base + funcRVA img.mem ed (nameOrdinal img.mem ed i))

/-- The export enumeration loop
`for (DWORD i = 0; i < exportDirectory->NumberOfNames; ++i)`. -/
def walkExports (img : ModuleImage) (ed : Nat) : List Line :=
  (List.range (numberOfNames img.mem ed)).map (exportRecord img ed)

/-- Header validation and export walk of `DllMain` after
`GetModuleInformation` succeeded: DOS magic check, NT magic check, export
directory lookup, then the enumeration loop; every emitted line is written
identically to the log file and the console. -/
def walkBody (img : ModuleImage) : List Line :=
  if readU16 img.mem 0 = IMAGE_DOS_SIGNATURE then
    if readU32 img.mem (readU32 img.mem 0x3C) = IMAGE_NT_SIGNATURE then
      match img.exportDirOff with
      | some ed => walkExports img ed
      | none => [Line.errNoExportDir]
    else [Line.errInvalidNt]
  else [Line.errInvalidDos]

/-- State of the OS environment consumed by `DllMain`: whether
`fopen_s("function_address_log.txt", "w")` succeeds, the main module
returned by `GetModuleHandle(NULL)` (`none` models a NULL handle), whether
`GetModuleInformation` succeeds, and the base of `d3d8.dll` if
`GetModuleHandle(L"d3d8.dll")` finds it. -/
structure OsEnv where
  fileOpens : Bool
  mainModule : Option ModuleImage
  modInfoOk : Bool
  d3d8Base : Option Nat
  deriving DecidableEq, Repr

/-- Lines produced for the main module: its base-address line, then the
walk, or the corresponding error line when `GetModuleHandle` or
`GetModuleInformation` failed. -/
def mainModulePart (mm : Option ModuleImage) (infoOk : Bool) : List Line :=
  match mm with
  | some img =>
    Line.moduleBase img.base ::
      (if infoOk then walkBody img else [Line.errGetModuleInfo])
  | none => [Line.errGetModuleHandle]

/-- Lines produced for the optional `d3d8.dll` lookup: its base address
when found, a not-found line otherwise. -/
def d3d8Part (d : Option Nat) : List Line :=
  match d with
  | some b => [Line.d3d8Base b]
  | none => [Line.errD3d8NotFound]

/-- Everything written inside `if (fp) { ... }`: lines written to both the
log file and the console, in program order. -/
def attachBody (env : OsEnv) : List Line :=
  Line.header :: (mainModulePart env.mainModule env.modInfoOk ++ d3d8Part env.d3d8Base)

/-- Observable result of a `DllMain` invocation: the lines on the console,
the lines in the log file, and the returned `BOOL`. -/
structure DllMainResult where
  consoleLines : List Line
  fileLines : List Line
  ret : Bool
  deriving DecidableEq, Repr

/-- Values of `ul_reason_for_call` distinguished by the `switch`. -/
inductive Reason where
  | processAttach
  | threadAttach
  | threadDetach
  | processDetach
  deriving DecidableEq, Repr

/-- Model of `DllMain`. On `DLL_PROCESS_ATTACH` it prints "DLL geladen!"
to the console, opens the log file, and only if the open succeeded runs
the body, writing each line to both destinations; on the other notify
reasons it does nothing. It returns `TRUE` in every case. -/
def DllMain (reason : Reason) (env : OsEnv) : DllMainResult :=
  match reason with
  | .processAttach =>
    if env.fileOpens then
      { consoleLines := Line.dllLoaded :: attachBody env
        fileLines := attachBody env
        ret := true }
    else
      { consoleLines := [Line.dllLoaded], fileLines := [], ret := true }
  | _ => { consoleLines := [], fileLines := [], ret := true }

/-- Shared report sink as the proxy functions see it: the log file's lines
and the console's lines. -/
structure SinkState where
  file : List Line
  console : List Line
  deriving DecidableEq, Repr

/-- Sink state produced by a `DLL_PROCESS_ATTACH` notification. -/
def attachSink (env : OsEnv) : SinkState :=
  { file := (DllMain .processAttach env).fileLines
    console := (DllMain .processAttach env).consoleLines }

/-- Model of the exported `PrintAddress`: reopens the log file in append
mode (`openOk` models the `fopen_s` success) and appends one line to the
file; it writes nothing to the console. -/
def PrintAddress (s : SinkState) (openOk : Bool) : SinkState :=
  if openOk then { s with file := s.file ++ [Line.printAddressCalled] } else s

/-- Model of the exported `Direct3D8EnableMaximizedModeShim`: an empty
body, so the sink is unchanged and nothing is returned. -/
def Direct3D8EnableMaximizedModeShim (s : SinkState) : SinkState × Unit :=
  (s, ())

/-- Model of the exported `Direct3DCreate8`: `return nullptr;` for any
`SDKVersion`. The returned pointer is modelled as `Option Nat`, `none`
being the null pointer. -/
def Direct3DCreate8 (SDKVersion : Nat) : Option Nat := none

/-- Invocation of `Direct3DCreate8` against the sink: the body touches no
state, so the sink passes through unchanged. -/
def Direct3DCreate8Run (s : SinkState) (SDKVersion : Nat) : SinkState × Option Nat :=
  (s, Direct3DCreate8 SDKVersion)

/-- Mapped bytes of a concrete two-export module image, laid out by hand:
DOS magic at 0, `e_lfanew = 0x80` at 0x3C, NT signature at 0x80, export
directory at 0xA0 with `NumberOfNames = 2`, address table `[0x200, 0x100]`
at 0xD0, name table `[0x110, 0x118]` at 0xE0, ordinal table `[1, 0]` at
0xF0, and the strings "Alpha" at 0x110 and "Beta" at 0x118. The ordinal
table is deliberately not the identity, so the two-step lookup yields
Alpha ↦ 0x100 and Beta ↦ 0x200 while a direct `address_table[i]` lookup
would swap the two addresses. -/
def testMem : List Nat :=
  [0x4D, 0x5A] ++ List.replicate 0x3A 0
    ++ [0x80, 0, 0, 0] ++ List.replicate 0x40 0
    ++ [0x50, 0x45, 0, 0] ++ List.replicate 0x1C 0
    ++ List.replicate 0x18 0
    ++ [2, 0, 0, 0] ++ [0xD0, 0, 0, 0] ++ [0xE0, 0, 0, 0] ++ [0xF0, 0, 0, 0]
    ++ List.replicate 8 0
    ++ [0, 2, 0, 0, 0, 1, 0, 0] ++ List.replicate 8 0
    ++ [0x10, 1, 0, 0, 0x18, 1, 0, 0] ++ List.replicate 8 0
    ++ [1, 0, 0, 0] ++ List.replicate 0x1C 0
    ++ [0x41, 0x6C, 0x70, 0x68, 0x61, 0] ++ [0, 0]
    ++ [0x42, 0x65, 0x74, 0x61, 0] ++ List.replicate 0xE3 0

/-- Well-formed module image over `testMem` at base 0x00400000,
reporting the whole 0x200 mapped bytes as its image size. -/
def testImage : ModuleImage :=
  { base := 0x400000, mem := testMem, sizeOfImage := 0x200,
    exportDirOff := some 0xA0 }

/-- Same mapped bytes, but the loader reports `SizeOfImage = 0x113`: the
name "Alpha" starts at RVA 0x110 inside the image but its bytes and null
terminator extend to offset 0x115, past the reported image size. -/
def truncImage : ModuleImage :=
  { base := 0x400000, mem := testMem, sizeOfImage := 0x113,
    exportDirOff := some 0xA0 }

/-- Module image whose first two bytes are not the DOS magic. -/
def badDosImage : ModuleImage :=
  { base := 0, mem := [0, 0, 0, 0], sizeOfImage := 4, exportDirOff := none }

/-- Module image with a valid DOS magic whose NT-header signature (at
`e_lfanew = 0`) reads back the DOS magic, not the NT signature. -/
def badNtImage : ModuleImage :=
  { base := 0, mem := [0x4D, 0x5A] ++ List.replicate 62 0, sizeOfImage := 64,
    exportDirOff := none }

/-- Well-formed image over `testMem` whose export-directory lookup comes
back empty (`ImageDirectoryEntryToData` returned NULL). -/
def noExportDirImage : ModuleImage :=
  { base := 0x400000, mem := testMem, sizeOfImage := 0x200, exportDirOff := none }

/-- Environment where everything succeeds: the log file opens, the main
module is `testImage`, and `d3d8.dll` is loaded at 0x00500000. -/
def env0 : OsEnv :=
  { fileOpens := true, mainModule := some testImage, modInfoOk := true,
    d3d8Base := some 0x500000 }

/-- Environment where the main module has no export directory and
`d3d8.dll` is absent. -/
def envNoExportDir : OsEnv :=
  { fileOpens := true, mainModule := some noExportDirImage, modInfoOk := true,
    d3d8Base := none }

/-- Environment where opening `function_address_log.txt` fails. -/
def envNoFile : OsEnv :=
  { fileOpens := false, mainModule := some testImage, modInfoOk := true,
    d3d8Base := some 0x500000 }

end AdressScouting

namespace AdressScouting

set_option maxRecDepth 10000

/-- C1: for every well-formed module image (valid DOS and NT magic, export
directory present) with `NumberOfNames = N`, the walk emits exactly `N`
export records, in table order, and the record at index `i` carries the
name scanned at `base + name_table[i]` and the absolute address
`base + address_table[name_ordinal_table[i]]` — the two-step ordinal
lookup, not `address_table[i]`. -/
theorem walker_emits_all_named_exports (img : ModuleImage) (ed : Nat)
    (hdos : readU16 img.mem 0 = IMAGE_DOS_SIGNATURE)
    (hnt : readU32 img.mem (readU32 img.mem 0x3C) = IMAGE_NT_SIGNATURE)
    (hed : img.exportDirOff = some ed) :
    (walkBody img).length = numberOfNames img.mem ed ∧
    ∀ i, i < numberOfNames img.mem ed →
      (walkBody img).get? i = some (Line.exportLine
        (readName img.mem (nameRVA img.mem ed i)).1
        (img.base + funcRVA img.mem ed (nameOrdinal img.mem ed i))) := by
  constructor
  · simp [walkBody, hdos, hnt, hed, walkExports]
  · intro i hi
    simp [walkBody, hdos, hnt, hed, walkExports, exportRecord,
      List.getElem?_map, List.getElem?_range hi]

/-- Witness for C1 on the concrete two-export image: the image whose
ordinal table is `[1, 0]` and address table `[0x200, 0x100]` yields
exactly the records `("Alpha", 0x00400100)` then `("Beta", 0x00400200)`
of the spec's scenario — the direct lookup `address_table[i]` would have
swapped the two addresses. -/
theorem walker_emits_all_named_exports_witness :
    (walkBody testImage).length = 2 ∧
    (walkBody testImage).get? 0 =
      some (Line.exportLine [65, 108, 112, 104, 97] 0x400100) ∧
    (walkBody testImage).get? 1 =
      some (Line.exportLine [66, 101, 116, 97] 0x400200) := by
  have h := walker_emits_all_named_exports testImage 0xA0
    (by decide) (by decide) rfl
  refine ⟨h.1.trans (by decide), ?_, ?_⟩
  · rw [h.2 0 (by decide)]; decide
  · rw [h.2 1 (by decide)]; decide

/-- C2 counterexample: on `truncImage` — well-formed headers, export
directory present, and the first name's RVA (0x110) inside the reported
image size 0x113 — the name scan dereferences offsets at and past the
reported image size, and the entry is not skipped: the walk emits it in
full and produces no per-entry diagnostic of any kind. The code never
consults `SizeOfImage` (`moduleSize` is assigned and unused) and contains
no `TruncatedEntry` handling. -/
theorem name_scan_reads_past_image_size :
    readU16 truncImage.mem 0 = IMAGE_DOS_SIGNATURE ∧
    readU32 truncImage.mem (readU32 truncImage.mem 0x3C) = IMAGE_NT_SIGNATURE ∧
    truncImage.exportDirOff = some 0xA0 ∧
    nameRVA truncImage.mem 0xA0 0 < truncImage.sizeOfImage ∧
    (∃ a ∈ (readName truncImage.mem (nameRVA truncImage.mem 0xA0 0)).2,
      truncImage.sizeOfImage ≤ a) ∧
    walkBody truncImage =
      [Line.exportLine [65, 108, 112, 104, 97] 0x400100,
       Line.exportLine [66, 101, 116, 97] 0x400200] := by decide

/-- C2 as amended: for every export entry the Walker reads the name bytes
at `base + name_table[i]` as a null-terminated string with an unbounded
scan that ignores the module's reported image size entirely — the walk's
output is unchanged under any reported `SizeOfImage` — and there is no
per-entry `TruncatedEntry` handling: every entry is emitted as an export
record and the loop emits no diagnostic lines. -/
theorem name_scan_unbounded (img : ModuleImage) (ed : Nat)
    (hdos : readU16 img.mem 0 = IMAGE_DOS_SIGNATURE)
    (hnt : readU32 img.mem (readU32 img.mem 0x3C) = IMAGE_NT_SIGNATURE)
    (hed : img.exportDirOff = some ed) :
    (∀ s, walkBody { img with sizeOfImage := s } = walkBody img) ∧
    (∀ i, i < numberOfNames img.mem ed →
      (walkBody img).get? i = some (Line.exportLine
        (readName img.mem (nameRVA img.mem ed i)).1
        (img.base + funcRVA img.mem ed (nameOrdinal img.mem ed i)))) ∧
    ∀ l ∈ walkBody img, ∃ n a, l = Line.exportLine n a := by
  refine ⟨fun s => rfl, ?_, ?_⟩
  · intro i hi
    simp [walkBody, hdos, hnt, hed, walkExports, exportRecord,
      List.getElem?_map, List.getElem?_range hi]
  · intro l hl
    simp only [walkBody, hdos, hnt, hed, if_pos, walkExports] at hl
    rw [List.mem_map] at hl
    obtain ⟨i, _, rfl⟩ := hl
    exact ⟨_, _, rfl⟩

/-- Witness for the amended C2 at `truncImage`: the walk is unchanged when
the reported size is restored to the full 0x200, the truncated-name entry
is still emitted at index 0, and the emitted line is an export record. -/
theorem name_scan_unbounded_witness :
    walkBody { truncImage with sizeOfImage := 0x200 } = walkBody truncImage ∧
    (walkBody truncImage).get? 0 = some (Line.exportLine
      (readName truncImage.mem (nameRVA truncImage.mem 0xA0 0)).1
      (truncImage.base +
        funcRVA truncImage.mem 0xA0 (nameOrdinal truncImage.mem 0xA0 0))) := by
  have h := name_scan_unbounded truncImage 0xA0 (by decide) (by decide) rfl
  exact ⟨h.1 0x200, h.2.1 0 (by decide)⟩

/-- C3: a module whose DOS magic mismatches yields exactly the
`InvalidDosHeader` diagnostic, a DOS-valid module whose NT signature
mismatches yields exactly the `InvalidNtHeader` diagnostic, and in either
case zero export records are emitted. The equalities hold for every image
with the failing magic, whatever its remaining bytes: the walk consults
nothing beyond the checked fields before aborting. -/
theorem invalid_header_aborts_walk (img : ModuleImage) :
    (readU16 img.mem 0 ≠ IMAGE_DOS_SIGNATURE →
      walkBody img = [Line.errInvalidDos]) ∧
    (readU16 img.mem 0 = IMAGE_DOS_SIGNATURE →
      readU32 img.mem (readU32 img.mem 0x3C) ≠ IMAGE_NT_SIGNATURE →
      walkBody img = [Line.errInvalidNt]) ∧
    ((readU16 img.mem 0 ≠ IMAGE_DOS_SIGNATURE ∨
      readU32 img.mem (readU32 img.mem 0x3C) ≠ IMAGE_NT_SIGNATURE) →
      ∀ n a, Line.exportLine n a ∉ walkBody img) := by
  refine ⟨fun h => by simp [walkBody, h], fun h h2 => by simp [walkBody, h, h2], ?_⟩
  rintro (h | h) n a hmem
  · simp [walkBody, h] at hmem
  · by_cases hdos : readU16 img.mem 0 = IMAGE_DOS_SIGNATURE
    · simp [walkBody, hdos, h] at hmem
    · simp [walkBody, hdos] at hmem

/-- Witness for C3 on concrete images: four zero bytes fail the DOS check,
and a DOS-valid image whose `e_lfanew` points back at the DOS magic fails
the NT check. -/
theorem invalid_header_aborts_walk_witness :
    walkBody badDosImage = [Line.errInvalidDos] ∧
    walkBody badNtImage = [Line.errInvalidNt] :=
  ⟨(invalid_header_aborts_walk badDosImage).1 (by decide),
   (invalid_header_aborts_walk badNtImage).2.1 (by decide) (by decide)⟩

/-- C4: a module with valid DOS and NT headers whose export-directory
lookup comes back empty yields exactly the `NoExportDirectory` diagnostic
and zero export records, and the outcome is non-fatal: the attach
notification still writes the following `d3d8.dll` lookup lines and
returns `TRUE` to the loader. -/
theorem no_export_directory_nonfatal (img : ModuleImage) (env : OsEnv)
    (hdos : readU16 img.mem 0 = IMAGE_DOS_SIGNATURE)
    (hnt : readU32 img.mem (readU32 img.mem 0x3C) = IMAGE_NT_SIGNATURE)
    (hed : img.exportDirOff = none)
    (hfp : env.fileOpens = true) (hmm : env.mainModule = some img)
    (hinfo : env.modInfoOk = true) :
    walkBody img = [Line.errNoExportDir] ∧
    (∀ n a, Line.exportLine n a ∉ walkBody img) ∧
    (DllMain .processAttach env).fileLines =
      Line.header :: Line.moduleBase img.base :: Line.errNoExportDir ::
        d3d8Part env.d3d8Base ∧
    (DllMain .processAttach env).ret = true := by
  have hw : walkBody img = [Line.errNoExportDir] := by
    simp [walkBody, hdos, hnt, hed]
  refine ⟨hw, fun n a hmem => by simp [hw] at hmem, ?_, by simp [DllMain, hfp]⟩
  simp [DllMain, hfp, attachBody, mainModulePart, hmm, hinfo, hw]

/-- Witness for C4 at `envNoExportDir`: the log file holds the banner,
the base-address line, the `NoExportDirectory` diagnostic and the
`d3d8.dll`-not-found line, and the attach returns `TRUE`. -/
theorem no_export_directory_nonfatal_witness :
    walkBody noExportDirImage = [Line.errNoExportDir] ∧
    (DllMain .processAttach envNoExportDir).fileLines =
      [Line.header, Line.moduleBase 0x400000, Line.errNoExportDir,
       Line.errD3d8NotFound] ∧
    (DllMain .processAttach envNoExportDir).ret = true := by
  have h := no_export_directory_nonfatal noExportDirImage envNoExportDir
    (by decide) (by decide) rfl rfl rfl rfl
  exact ⟨h.1, h.2.2.1.trans (by decide), h.2.2.2⟩

/-- C5 counterexample: after a fully successful attach, a call to the
append-log-line proxy `PrintAddress` puts its diagnostic line in the named
file but not on the console stream — the two destinations are not in
lockstep for proxy-written lines, because `PrintAddress` only ever writes
to the file. -/
theorem print_address_file_only_cex :
    Line.printAddressCalled ∈ (PrintAddress (attachSink env0) true).file ∧
    Line.printAddressCalled ∉ (PrintAddress (attachSink env0) true).console := by
  decide

/-- C5 as amended: the lines the attach-time Walker emits after the report
file opens are written to the file and the console in lockstep — the
console stream is exactly the initial load message followed by the file's
lines — but the append-log-line proxy `PrintAddress` appends its line to
the file only and leaves the console untouched. -/
theorem report_lines_lockstep (env : OsEnv) (h : env.fileOpens = true)
    (s : SinkState) :
    (DllMain .processAttach env).consoleLines =
      Line.dllLoaded :: (DllMain .processAttach env).fileLines ∧
    (PrintAddress s true).file = s.file ++ [Line.printAddressCalled] ∧
    (PrintAddress s true).console = s.console := by
  refine ⟨by simp [DllMain, h], rfl, rfl⟩

/-- Witness for the amended C5 at `env0` and the sink it produces. -/
theorem report_lines_lockstep_witness :
    (DllMain .processAttach env0).consoleLines =
      Line.dllLoaded :: (DllMain .processAttach env0).fileLines ∧
    (PrintAddress (attachSink env0) true).file =
      (attachSink env0).file ++ [Line.printAddressCalled] ∧
    (PrintAddress (attachSink env0) true).console = (attachSink env0).console :=
  report_lines_lockstep env0 rfl (attachSink env0)

/-- C6: every proxy export, on any argument of its expected type and any
prior sink state, returns a value of the correct type without faulting:
`Direct3DCreate8` returns the null pointer for every `SDKVersion`, the
shim returns unit and touches nothing, and `PrintAddress` either leaves
the sink unchanged or appends exactly its one line to the file. The
universal quantification over the sink state covers any number and order
of prior calls. -/
theorem proxy_exports_total (s : SinkState) (SDKVersion : Nat) (openOk : Bool) :
    Direct3DCreate8 SDKVersion = none ∧
    Direct3DCreate8Run s SDKVersion = (s, none) ∧
    Direct3D8EnableMaximizedModeShim s = (s, ()) ∧
    (PrintAddress s openOk = s ∨
      PrintAddress s openOk =
        { s with file := s.file ++ [Line.printAddressCalled] }) := by
  refine ⟨rfl, rfl, rfl, ?_⟩
  cases openOk
  · exact Or.inl rfl
  · exact Or.inr rfl

/-- C7: two consecutive calls of `Direct3DCreate8`, with any `SDKVersion`
arguments and from any sink state, both return the null pointer, leave the
sink exactly as it was, and the result never depends on the argument. -/
theorem direct3dcreate8_stateless_null (s : SinkState) (a b : Nat) :
    (Direct3DCreate8Run s a).2 = none ∧
    (Direct3DCreate8Run (Direct3DCreate8Run s a).1 b).2 = none ∧
    (Direct3DCreate8Run (Direct3DCreate8Run s a).1 b).1 = s ∧
    Direct3DCreate8 a = Direct3DCreate8 b :=
  ⟨rfl, rfl, rfl, rfl⟩

/-- C8: the attach output decomposes as banner, main-module part, then the
`d3d8.dll` part, where the main-module part depends only on the main
module and the `GetModuleInformation` outcome; when `d3d8.dll` is present
its part is exactly its base-address line (never an export record — no
export walk of it), when absent exactly the not-found line, and the load
reports success either way. -/
theorem d3d8_lookup_reports_base_only (env : OsEnv) (h : env.fileOpens = true) :
    (DllMain .processAttach env).fileLines =
      Line.header ::
        (mainModulePart env.mainModule env.modInfoOk ++ d3d8Part env.d3d8Base) ∧
    (∀ b, d3d8Part (some b) = [Line.d3d8Base b]) ∧
    d3d8Part none = [Line.errD3d8NotFound] ∧
    (∀ d n a, Line.exportLine n a ∉ d3d8Part d) ∧
    (DllMain .processAttach env).ret = true := by
  refine ⟨by simp [DllMain, h, attachBody], fun b => rfl, rfl, ?_, by simp [DllMain, h]⟩
  rintro (_ | d) n a hmem <;> simp [d3d8Part] at hmem

/-- Witness for C8 at `env0` (where `d3d8.dll` sits at 0x00500000). -/
theorem d3d8_lookup_reports_base_only_witness :
    (DllMain .processAttach env0).fileLines =
      Line.header ::
        (mainModulePart env0.mainModule env0.modInfoOk ++ d3d8Part env0.d3d8Base) ∧
    d3d8Part (some 0x500000) = [Line.d3d8Base 0x500000] ∧
    d3d8Part none = [Line.errD3d8NotFound] ∧
    Line.exportLine [65, 108, 112, 104, 97] 0x400100 ∉ d3d8Part (some 0x500000) ∧
    (DllMain .processAttach env0).ret = true := by
  have h := d3d8_lookup_reports_base_only env0 rfl
  exact ⟨h.1, h.2.1 0x500000, h.2.2.1, h.2.2.2.1 (some 0x500000) _ _, h.2.2.2.2⟩

/-- C9: `DllMain` returns `TRUE` for every notify reason and every
environment — every Walker outcome included; failures only ever show up
as logged text, never in the value returned to the loader. -/
theorem dllmain_always_returns_true (reason : Reason) (env : OsEnv) :
    (DllMain reason env).ret = true := by
  cases reason
  · by_cases h : env.fileOpens <;> simp [DllMain, h]
  · rfl
  · rfl
  · rfl

/-- C10: when opening the report file fails at attach time, no walk output
is produced at all — the file stays empty, the console carries only the
pre-open load message (no banner, no header validation, no export or
diagnostic line, no `d3d8.dll` lookup line) — and the load still reports
success. -/
theorem file_open_failure_skips_walk (env : OsEnv)
    (h : env.fileOpens = false) :
    (DllMain .processAttach env).fileLines = [] ∧
    (DllMain .processAttach env).consoleLines = [Line.dllLoaded] ∧
    (DllMain .processAttach env).ret = true := by
  simp [DllMain, h]

/-- Witness for C10 at `envNoFile`, whose main module and `d3d8.dll`
would both have produced output had the file opened. -/
theorem file_open_failure_skips_walk_witness :
    (DllMain .processAttach envNoFile).fileLines = [] ∧
    (DllMain .processAttach envNoFile).consoleLines = [Line.dllLoaded] ∧
    (DllMain .processAttach envNoFile).ret = true :=
  file_open_failure_skips_walk envNoFile rfl

end AdressScouting
